import Mathlib

/-!
Shallow embedding of the api-monitor dashboard (src/app.py): the
fetch-and-normalize pipeline.  Pure transformations are embedded as Lean
functions; the HTTP transport and the render cycle are modelled by explicit
outcome values fed to those functions.  Python machine-level details that
matter here: `dict.get(k, d)` defaults only when the key is absent,
`str.split(sep)` on the empty string yields `[""]`, a dict comprehension
lets later keys overwrite earlier ones while keeping the first insertion
position, and `datetime.fromtimestamp` converts via the local timezone
(modelled as an explicit offset in seconds).
-/

namespace ApiMonitor

/-- One `{datetime: epoch-seconds, value: milliseconds}` record of a monitor's
`response_times` array (src/app.py lines 124-131 read these two fields). -/
structure ResponseTime where
  datetime : Int
  value : Int
deriving Repr, DecidableEq

/-- The optional `reason` object of a log entry; its `detail` field may be
absent (src/app.py line 149: `log.get('reason', {}).get('detail', 'N/A')`). -/
structure Reason where
  detail : Option String
deriving Repr, DecidableEq

/-- One entry of a monitor's `logs` array (src/app.py lines 144-150 read
`type`, `datetime` and the optional `reason`). -/
structure LogEntry where
  type : Int
  datetime : Int
  reason : Option Reason
deriving Repr, DecidableEq

/-- A monitor record as returned by the provider.  Fields the dashboard
reads: `friendly_name`, `url`, `status` (src/app.py lines 104-108), the
optional `custom_uptime_ratio` string (line 111), and the optional
`response_times` and `logs` arrays (lines 124, 139). -/
structure Monitor where
  friendly_name : String
  url : String
  status : Int
  custom_uptime_ratio : Option String
  response_times : Option (List ResponseTime)
  logs : Option (List LogEntry)
deriving Repr, DecidableEq

/-- The provider's JSON response body as read by the fetcher: `stat`,
`monitors` and `error` are each read with `dict.get`, so each may be absent
(src/app.py lines 59-62). -/
structure ApiResponse where
  stat : Option String
  monitors : Option (List Monitor)
  error : Option String
deriving Repr, DecidableEq

/-- Outcome of the HTTP round trip in `fetch_uptimerobot_data`.  `failure e`
stands for any `requests.exceptions.RequestException` — network error,
timeout, or the non-2xx `HTTPError` raised by `response.raise_for_status()`
(src/app.py lines 54-55, 65) — with `e` the exception's message; `success`
carries the decoded JSON body. -/
inductive TransportResult where
  | failure (msg : String)
  | success (body : ApiResponse)
deriving Repr, DecidableEq

/-- src/app.py lines 31-37: map from UptimeRobot status codes to
human-readable text and icons. -/
def STATUS_MAP (c : Int) : Option (String × String) :=
  if c = 0 then some ("Paused", "⏸️")
  else if c = 1 then some ("Not Checked Yet", "❔")
  else if c = 2 then some ("Up", "✅")
  else if c = 8 then some ("Seems Down", "⚠️")
  else if c = 9 then some ("Down", "🔥")
  else none

/-- src/app.py line 108: `STATUS_MAP.get(monitor['status'], ("Unknown", "❓"))`
— status translation at the monitor-status call site. -/
def translate_status_monitor (c : Int) : String × String :=
  (STATUS_MAP c).getD ("Unknown", "❓")

/-- src/app.py line 145: `STATUS_MAP.get(log['type'], ("Event", "ℹ️"))`
— status translation at the log-entry call site. -/
def translate_status_log (c : Int) : String × String :=
  (STATUS_MAP c).getD ("Event", "ℹ️")

/-- Python `str.split(sep)` for a single-character separator, on the
character list: splitting the empty list yields one empty segment, and each
occurrence of `sep` starts a new segment. -/
def splitChar (sep : Char) : List Char → List (List Char)
  | [] => [[]]
  | c :: rest =>
    if c = sep then [] :: splitChar sep rest
    else
      match splitChar sep rest with
      | [] => [[c]]
      | h :: t => (c :: h) :: t

/-- Python `s.split('-')` as used in src/app.py line 111 (single-character
separator): `"".split('-') == ['']`, `"a-b".split('-') == ['a','b']`. -/
def pySplit (s : String) (sep : Char) : List String :=
  (splitChar sep s.toList).map (fun l => String.mk l)

/-- src/app.py line 111: `monitor.get('custom_uptime_ratio', '0-0').split('-')`.
The `'0-0'` default applies only when the field is absent (`none`), exactly
like Python's `dict.get`. -/
def uptime_ratios (custom : Option String) : List String :=
  pySplit (custom.getD "0-0") '-'

/-- src/app.py lines 111-113: the pair
`(uptime_ratios[0] if len > 0 else 'N/A', uptime_ratios[1] if len > 1 else 'N/A')`
— the 7-day and 30-day uptime strings shown in the KPIs. -/
def parse_uptime (custom : Option String) : String × String :=
  let rs := uptime_ratios custom
  (if rs.length > 0 then rs.getD 0 "" else "N/A",
   if rs.length > 1 then rs.getD 1 "" else "N/A")

/-- src/app.py lines 53-67, the body of `fetch_uptimerobot_data` after the
POST: on a transport failure the `except` branch reports
`HTTP Request failed: ...` and returns `None`; on a 2xx JSON body with
`stat == "ok"` it returns `data.get("monitors", [])`; otherwise it reports
`API Error: ...` (with `data.get('error', 'Unknown error')`) and returns
`None`.  The first component collects the `st.error` messages emitted, the
second is the Python return value (`None` embedded as `none`). -/
def fetch_uptimerobot_data : TransportResult → List String × Option (List Monitor)
  | .failure e => (["HTTP Request failed: " ++ e], none)
  | .success d =>
    if d.stat = some "ok" then ([], some (d.monitors.getD []))
    else (["API Error: " ++ d.error.getD "Unknown error"], none)

/-- Insertion into a Python dict rendered as an insertion-ordered
association list: an existing key keeps its position and gets the new value,
a new key is appended at the end. -/
def dictInsert : List (String × Monitor) → String → Monitor → List (String × Monitor)
  | [], k, v => [(k, v)]
  | p :: rest, k, v =>
    if p.1 = k then (k, v) :: rest else p :: dictInsert rest k v

/-- Lookup in the association-list rendering of a Python dict. -/
def dictLookup (d : List (String × Monitor)) (k : String) : Option Monitor :=
  (d.find? (fun p => p.1 = k)).map (fun p => p.2)

/-- src/app.py line 77: the dict comprehension
`{m['friendly_name']: m for m in monitors}` — keys are inserted in input
order, so a later record with the same `friendly_name` overwrites an
earlier one. -/
def monitor_dict (monitors : List Monitor) : List (String × Monitor) :=
  monitors.foldl (fun d m => dictInsert d m.friendly_name m) []

/-- src/app.py lines 69-78, `process_monitor_data`: `None` or an empty list
yields the empty dict (`if not monitors: return {}`), otherwise the
`friendly_name`-indexed dict. -/
def process_monitor_data (monitors : Option (List Monitor)) : List (String × Monitor) :=
  match monitors with
  | none => []
  | some l => if l.isEmpty then [] else monitor_dict l

/-- Proleptic-Gregorian civil date from a count of days since 1970-01-01
(Euclidean-division form of the standard civil-from-days algorithm, matching
what Python's `datetime` computes). -/
def civilFromDays (z : Int) : Int × Nat × Nat :=
  let zs := z + 719468
  let era : Int := zs.fdiv 146097
  let doe : Nat := (zs - era * 146097).toNat
  let yoe : Nat := (doe - doe / 1460 + doe / 36524 - doe / 146096) / 365
  let y : Int := (yoe : Int) + era * 400
  let doy : Nat := doe - (365 * yoe + yoe / 4 - yoe / 100)
  let mp : Nat := (5 * doy + 2) / 153
  let d : Nat := doy - (153 * mp + 2) / 5 + 1
  let m : Nat := if mp < 10 then mp + 3 else mp - 9
  (if m ≤ 2 then y + 1 else y, m, d)

/-- A calendar datetime value (what `datetime.fromtimestamp` or pandas
`to_datetime(unit='s')` produces, up to second precision). -/
structure CivilDateTime where
  year : Int
  month : Nat
  day : Nat
  hour : Nat
  minute : Nat
  second : Nat
deriving Repr, DecidableEq

/-- Epoch seconds to a calendar datetime (floor division, as Python does for
negative timestamps too). -/
def epochToCivil (t : Int) : CivilDateTime :=
  let days := t.fdiv 86400
  let sod := (t.fmod 86400).toNat
  let c := civilFromDays days
  ⟨c.1, c.2.1, c.2.2, sod / 3600, sod % 3600 / 60, sod % 60⟩

/-- Zero-padded two-digit decimal field of `strftime`. -/
def pad2 (n : Nat) : String :=
  if n < 10 then "0" ++ toString n else toString n

/-- Zero-padded four-digit year field of `strftime` (`%Y`). -/
def pad4 (y : Int) : String :=
  if y < 0 then toString y
  else if y < 10 then "000" ++ toString y
  else if y < 100 then "00" ++ toString y
  else if y < 1000 then "0" ++ toString y
  else toString y

/-- src/app.py line 148:
`datetime.fromtimestamp(log['datetime']).strftime('%Y-%m-%d %H:%M:%S')`.
`fromtimestamp` uses the machine's local timezone, modelled here by the
explicit offset `tz` in seconds east of UTC. -/
def formatTimestamp (tz : Int) (epoch : Int) : String :=
  let c := epochToCivil (epoch + tz)
  pad4 c.year ++ "-" ++ pad2 c.month ++ "-" ++ pad2 c.day ++ " " ++
    pad2 c.hour ++ ":" ++ pad2 c.minute ++ ":" ++ pad2 c.second

/-- One row of the processed event-log table (src/app.py lines 146-150):
`Event`, `Timestamp`, `Details` columns. -/
structure LogRow where
  event : String
  timestamp : String
  details : String
deriving Repr, DecidableEq

/-- src/app.py lines 145-150, the body of the log loop: translate the
entry's `type` with the `("Event", "ℹ️")` fallback, render the event cell as
`f"{log_icon} {log_type}"`, format the timestamp in local time, and take
`log.get('reason', {}).get('detail', 'N/A')` for the details. -/
def logRow (tz : Int) (log : LogEntry) : LogRow :=
  let t := translate_status_log log.type
  { event := t.2 ++ " " ++ t.1
    timestamp := formatTimestamp tz log.datetime
    details := (log.reason.bind Reason.detail).getD "N/A" }

/-- src/app.py lines 143-150: the loop `for log in log_data:` appending one
processed row per entry to `processed_logs`, in input order. -/
def processed_logs (tz : Int) (log_data : List LogEntry) : List LogRow :=
  log_data.foldl (fun acc log => acc ++ [logRow tz log]) []

/-- src/app.py lines 139-155: the event-log section.  The guard
`if 'logs' in monitor and monitor['logs']:` means an absent or empty `logs`
field shows the "No logs available" notice and produces no table (embedded
as the empty table); otherwise the processed rows are displayed. -/
def to_log_table (tz : Int) (logs : Option (List LogEntry)) : List LogRow :=
  match logs with
  | none => []
  | some l => if l.isEmpty then [] else processed_logs tz l

/-- src/app.py lines 124-133: the response-time chart data.  The guard
`if 'response_times' in monitor and monitor['response_times']:` means an
absent or empty field yields no series (embedded as the empty list);
otherwise each entry's epoch-seconds `datetime` is converted to a calendar
datetime (`pd.to_datetime(..., unit='s')`) and paired with its millisecond
`value`, in input order. -/
def to_series (rts : Option (List ResponseTime)) : List (CivilDateTime × Int) :=
  match rts with
  | none => []
  | some l =>
    if l.isEmpty then []
    else l.map (fun r => (epochToCivil r.datetime, r.value))

/-- One memoized fetch result with the wall-clock time it was stored at. -/
structure CacheEntry where
  value : Option (List Monitor)
  storedAt : Int
deriving Repr, DecidableEq

/-- The process-wide cache keyed by API key. -/
abbrev Cache : Type := List (String × CacheEntry)

/-- Lookup of the entry cached for a key. -/
def cacheLookup (c : Cache) (k : String) : Option CacheEntry :=
  (c.find? (fun p => p.1 = k)).map (fun p => p.2)

/-- Store (or replace) the entry cached for a key. -/
def cacheStore (c : Cache) (k : String) (e : CacheEntry) : Cache :=
  (k, e) :: c.filter (fun p => p.1 ≠ k)

/-- Modelled from the spec: the `@st.cache_data(ttl=300)` decorator on
`fetch_uptimerobot_data` (src/app.py line 39) — the memoization itself lives
in the streamlit library, not in this repository.  Spec §3/§4.1: the result
is memoized keyed by the API key, a cached entry is returned without a
network round trip while its age is within the 300-second time-to-live, and
is "invalidated and replaced once its age exceeds the configured
time-to-live (300 seconds)".  `now` is the wall-clock time of the call,
`net` the transport outcome a fresh network call would see; the `Bool`
records whether a network request was issued. -/
def cachedFetch (now : Int) (k : String) (c : Cache) (net : TransportResult) :
    Cache × Option (List Monitor) × Bool :=
  match cacheLookup c k with
  | some e =>
    if now - e.storedAt ≤ 300 then (c, e.value, false)
    else
      let v := (fetch_uptimerobot_data net).2
      (cacheStore c k ⟨v, now⟩, v, true)
  | none =>
    let v := (fetch_uptimerobot_data net).2
    (cacheStore c k ⟨v, now⟩, v, true)

/-- Outcome of one render cycle of the main script. -/
inductive RenderOutcome where
  | haltedNoKey (msg : String)
  | haltedNoData (msg : String)
  | rendered (monitors_dict : List (String × Monitor))
deriving Repr, DecidableEq

/-- src/app.py lines 19-24 and 82-98: the top of the main script.  An empty
API key halts with the configuration error (lines 22-24); otherwise the
fetch result is processed, and an empty dict halts with the warning
`"No monitor data found or an error occurred."` via `st.stop()` (lines
88-90); otherwise rendering proceeds with the dict. -/
def app_main (apiKey : String) (t : TransportResult) : RenderOutcome :=
  if apiKey = "" then
    .haltedNoKey
      "API Key not found. Please check your UPTIMEROBOT_API_KEY environment variable in Render."
  else
    let monitors_list := (fetch_uptimerobot_data t).2
    let monitors_dict := process_monitor_data monitors_list
    if monitors_dict.isEmpty then
      .haltedNoData "No monitor data found or an error occurred."
    else
      .rendered monitors_dict

/-! Helper lemmas shared by the claim theorems. -/

theorem foldl_append_eq_map {α β : Type} (f : α → β) (l : List α) (acc : List β) :
    l.foldl (fun a x => a ++ [f x]) acc = acc ++ l.map f := by
  induction l generalizing acc with
  | nil => simp
  | cons x xs ih => simp [List.foldl, ih]

theorem processed_logs_eq_map (tz : Int) (l : List LogEntry) :
    processed_logs tz l = l.map (logRow tz) := by
  simpa using foldl_append_eq_map (logRow tz) l []

theorem to_log_table_some_eq_map (tz : Int) (l : List LogEntry) :
    to_log_table tz (some l) = l.map (logRow tz) := by
  cases l with
  | nil => rfl
  | cons x xs => simp [to_log_table, processed_logs_eq_map]

theorem to_series_some_eq_map (l : List ResponseTime) :
    to_series (some l) = l.map (fun r => (epochToCivil r.datetime, r.value)) := by
  cases l with
  | nil => rfl
  | cons x xs => simp [to_series]

theorem dictLookup_cons (p : String × Monitor) (rest : List (String × Monitor)) (k : String) :
    dictLookup (p :: rest) k = if p.1 = k then some p.2 else dictLookup rest k := by
  by_cases h : p.1 = k
  · rw [dictLookup, List.find?_cons_of_pos _ (by simp [h]), if_pos h]
    rfl
  · rw [dictLookup, List.find?_cons_of_neg _ (by simp [h]), if_neg h]
    rfl

theorem dictLookup_dictInsert (d : List (String × Monitor)) (k k' : String) (v : Monitor) :
    dictLookup (dictInsert d k v) k' = if k' = k then some v else dictLookup d k' := by
  induction d with
  | nil =>
    simp only [dictInsert, dictLookup_cons]
    by_cases h : k' = k
    · simp [h]
    · simp [h, Ne.symm h]
  | cons p rest ih =>
    by_cases hp : p.1 = k
    · simp only [dictInsert, if_pos hp, dictLookup_cons]
      by_cases h : k' = k
      · simp [h]
      · simp [h, Ne.symm h, hp]
    · simp only [dictInsert, if_neg hp, dictLookup_cons, ih]
      by_cases hq : p.1 = k'
      · have h : ¬ k' = k := fun hh => hp (hh ▸ hq)
        simp [hq, h]
      · simp [hq]

theorem mem_keys_dictInsert (d : List (String × Monitor)) (k k' : String) (v : Monitor) :
    k' ∈ (dictInsert d k v).map Prod.fst ↔ k' = k ∨ k' ∈ d.map Prod.fst := by
  induction d with
  | nil => simp [dictInsert]
  | cons p rest ih =>
    by_cases hp : p.1 = k
    · subst hp
      have e : dictInsert (p :: rest) p.1 v = (p.1, v) :: rest := by
        simp [dictInsert]
      rw [e]
      simp only [List.map_cons, List.mem_cons]
      tauto
    · simp only [dictInsert, if_neg hp, List.map_cons, List.mem_cons, ih]
      tauto

theorem nodup_keys_dictInsert (d : List (String × Monitor)) (k : String) (v : Monitor)
    (h : (d.map Prod.fst).Nodup) : ((dictInsert d k v).map Prod.fst).Nodup := by
  induction d with
  | nil => simp [dictInsert]
  | cons p rest ih =>
    simp only [List.map_cons, List.nodup_cons] at h
    by_cases hp : p.1 = k
    · simp only [dictInsert, if_pos hp, List.map_cons]
      exact List.nodup_cons.mpr ⟨hp ▸ h.1, h.2⟩
    · simp only [dictInsert, if_neg hp, List.map_cons]
      refine List.nodup_cons.mpr ⟨?_, ih h.2⟩
      intro hmem
      rcases (mem_keys_dictInsert rest k p.1 v).mp hmem with h1 | h2
      · exact hp h1
      · exact h.1 h2

theorem monitor_dict_append (ms : List Monitor) (m : Monitor) :
    monitor_dict (ms ++ [m]) = dictInsert (monitor_dict ms) m.friendly_name m := by
  simp [monitor_dict, List.foldl_append]

theorem dictLookup_monitor_dict (ms : List Monitor) (name : String) :
    dictLookup (monitor_dict ms) name =
      ms.reverse.find? (fun m => m.friendly_name = name) := by
  induction ms using List.reverseRecOn with
  | nil => rfl
  | append_singleton xs x ih =>
    rw [monitor_dict_append, dictLookup_dictInsert]
    by_cases h : name = x.friendly_name
    · simp [h, List.reverse_append]
    · have h2 : ¬ x.friendly_name = name := fun hh => h hh.symm
      simp [h, h2, List.reverse_append, ih]

theorem nodup_keys_monitor_dict (ms : List Monitor) :
    ((monitor_dict ms).map Prod.fst).Nodup := by
  induction ms using List.reverseRecOn with
  | nil => simp [monitor_dict]
  | append_singleton xs x ih =>
    rw [monitor_dict_append]
    exact nodup_keys_dictInsert _ _ _ ih

theorem mem_keys_monitor_dict (ms : List Monitor) (name : String) :
    name ∈ (monitor_dict ms).map Prod.fst ↔ name ∈ ms.map Monitor.friendly_name := by
  induction ms using List.reverseRecOn with
  | nil => simp [monitor_dict]
  | append_singleton xs x ih =>
    rw [monitor_dict_append, mem_keys_dictInsert, ih]
    simp only [List.map_append, List.map_cons, List.map_nil, List.mem_append,
      List.mem_singleton]
    tauto

theorem process_monitor_data_some (l : List Monitor) :
    process_monitor_data (some l) = monitor_dict l := by
  cases l with
  | nil => rfl
  | cons x xs => rfl

/-! Theorems settling the claims. -/

/-- C3, counterexample: on the code, `parse_uptime` applied to the empty
string (the field present but empty) does NOT yield `("0", "0")`: Python's
`dict.get` default applies only to an absent key, and `"".split('-')`
yields `['']`, so the result is `("", "N/A")`. -/
theorem C3_counterexample :
    parse_uptime (some "") = ("", "N/A") ∧ parse_uptime (some "") ≠ ("0", "0") := by
  exact ⟨by decide, by decide⟩

/-- C3, amended: when `custom_uptime_ratio` is absent the `"0-0"` default is
split and the result is `("0", "0")`; when the field is present as the
empty string it is split directly into one empty segment, giving
`("", "N/A")`. -/
theorem C3_default_then_split :
    parse_uptime none = ("0", "0") ∧ parse_uptime (some "") = ("", "N/A") := by
  exact ⟨by decide, by decide⟩

/-- C4: status translation is a pure lookup over the fixed enumeration:
code 2 yields `("Up", "✅")`, and every code outside {0, 1, 2, 8, 9} yields
`("Unknown", "❓")` at the monitor-status call site and `("Event", "ℹ️")`
at the log call site. -/
theorem C4_status_translation :
    translate_status_monitor 2 = ("Up", "✅") ∧
    (∀ c : Int, c ≠ 0 → c ≠ 1 → c ≠ 2 → c ≠ 8 → c ≠ 9 →
      translate_status_monitor c = ("Unknown", "❓") ∧
      translate_status_log c = ("Event", "ℹ️")) := by
  refine ⟨by decide, ?_⟩
  intro c h0 h1 h2 h8 h9
  simp [translate_status_monitor, translate_status_log, STATUS_MAP, h0, h1, h2, h8, h9]

/-- C4, witness: the out-of-enumeration code 999 hits both fallbacks. -/
theorem C4_witness :
    translate_status_monitor 999 = ("Unknown", "❓") ∧
    translate_status_log 999 = ("Event", "ℹ️") :=
  C4_status_translation.2 999 (by decide) (by decide) (by decide) (by decide) (by decide)

/-- C6: `parse_uptime` splits on `-`: a two-segment string yields the pair
of its segments, and whenever fewer than two segments result the 30-day
component is the literal string `"N/A"`. -/
theorem C6_uptime_segments :
    parse_uptime (some "98.5-99.2") = ("98.5", "99.2") ∧
    (∀ s : String, (uptime_ratios (some s)).length < 2 →
      (parse_uptime (some s)).2 = "N/A") := by
  refine ⟨by decide, ?_⟩
  intro s h
  have h1 : ¬ (uptime_ratios (some s)).length > 1 := by omega
  simp [parse_uptime, h1]

/-- C6, witness: the single-segment input `"98.5"` yields `"N/A"` as the
30-day component. -/
theorem C6_witness :
    (uptime_ratios (some "98.5")).length < 2 ∧
    (parse_uptime (some "98.5")).2 = "N/A" :=
  ⟨by decide, C6_uptime_segments.2 "98.5" (by decide)⟩

/-- C10: on a string with more than two dash-separated segments,
`parse_uptime` uses only the first segment (7-day) and the second (30-day),
ignoring the rest. -/
theorem C10_extra_segments_ignored (s : String)
    (h : 2 < (uptime_ratios (some s)).length) :
    parse_uptime (some s) =
      ((uptime_ratios (some s)).getD 0 "", (uptime_ratios (some s)).getD 1 "") := by
  have h0 : (uptime_ratios (some s)).length > 0 := by omega
  have h1 : (uptime_ratios (some s)).length > 1 := by omega
  simp [parse_uptime, h0, h1]

/-- C10, witness: `"1-2-3"` yields `("1", "2")`, the third segment ignored. -/
theorem C10_witness :
    2 < (uptime_ratios (some "1-2-3")).length ∧
    parse_uptime (some "1-2-3") = ("1", "2") :=
  ⟨by decide, (C10_extra_segments_ignored "1-2-3" (by decide)).trans (by decide)⟩

/-- C1: for every transport outcome, if the response's application-level
status is `"ok"`, `fetch_uptimerobot_data` returns the list of monitor
records (the empty list when `monitors` is absent) with no error message;
on a non-`"ok"` application status or any transport-level failure it emits
a user-visible error message and returns the explicit no-data result
`none`.  The function is total, so no fault propagates on any path. -/
theorem C1_fetch_error_handling (t : TransportResult) :
    ((∃ d, t = .success d ∧ d.stat = some "ok") →
      ∃ ms, fetch_uptimerobot_data t = ([], some ms) ∧
        ∀ d, t = .success d → ms = d.monitors.getD []) ∧
    ((∀ d, t = .success d → d.stat ≠ some "ok") →
      (fetch_uptimerobot_data t).2 = none ∧ (fetch_uptimerobot_data t).1 ≠ []) := by
  constructor
  · rintro ⟨d, rfl, hok⟩
    refine ⟨d.monitors.getD [], ?_, ?_⟩
    · simp [fetch_uptimerobot_data, hok]
    · intro d' h
      cases h
      rfl
  · intro hnot
    cases t with
    | failure e => simp [fetch_uptimerobot_data]
    | success d =>
      have hne := hnot d rfl
      simp [fetch_uptimerobot_data, hne]

/-- C1, witness: a concrete `"ok"` response with no `monitors` field yields
the empty list, and a concrete transport failure yields `none` with an
error message emitted. -/
theorem C1_witness :
    fetch_uptimerobot_data (.success ⟨some "ok", none, none⟩) = ([], some []) ∧
    (fetch_uptimerobot_data (.failure "timeout")).2 = none ∧
    (fetch_uptimerobot_data (.failure "timeout")).1 ≠ [] := by
  refine ⟨?_, ?_⟩
  · obtain ⟨ms, hms, hall⟩ :=
      (C1_fetch_error_handling (.success ⟨some "ok", none, none⟩)).1 ⟨_, rfl, rfl⟩
    have hms0 : ms = [] := by simpa using hall _ rfl
    rw [hms0] at hms
    exact hms
  · exact (C1_fetch_error_handling (.failure "timeout")).2
      (fun d h => TransportResult.noConfusion h)

theorem cacheLookup_cacheStore_self (c : Cache) (k : String) (e : CacheEntry) :
    cacheLookup (cacheStore c k e) k = some e := by
  rw [cacheLookup, cacheStore, List.find?_cons_of_pos _ (by simp)]
  rfl

theorem cachedFetch_hit (now : Int) (k : String) (c : Cache) (net : TransportResult)
    (e : CacheEntry) (he : cacheLookup c k = some e) (hf : now - e.storedAt ≤ 300) :
    cachedFetch now k c net = (c, e.value, false) := by
  simp [cachedFetch, he, hf]

/-- C2: two `cachedFetch` calls with the same non-empty key within 300
seconds of each other issue at most one network request, and a call made
once more than 300 seconds have elapsed since the cached entry was stored
issues a new network request and replaces the cached result. -/
theorem C2_cache_ttl :
    (∀ (c : Cache) (k : String) (t1 t2 : Int) (n1 n2 : TransportResult),
      k ≠ "" → t1 ≤ t2 → t2 - t1 ≤ 300 →
      ¬((cachedFetch t1 k c n1).2.2 = true ∧
        (cachedFetch t2 k (cachedFetch t1 k c n1).1 n2).2.2 = true)) ∧
    (∀ (c : Cache) (k : String) (now : Int) (n : TransportResult) (e : CacheEntry),
      cacheLookup c k = some e → 300 < now - e.storedAt →
      (cachedFetch now k c n).2.2 = true ∧
      cacheLookup (cachedFetch now k c n).1 k =
        some ⟨(fetch_uptimerobot_data n).2, now⟩) := by
  constructor
  · intro c k t1 t2 n1 n2 hk h12 hle h
    obtain ⟨hb1, hb2⟩ := h
    have key : (cachedFetch t1 k c n1).1 =
        cacheStore c k ⟨(fetch_uptimerobot_data n1).2, t1⟩ := by
      cases hc : cacheLookup c k with
      | none => simp [cachedFetch, hc]
      | some e =>
        by_cases hfresh : t1 - e.storedAt ≤ 300
        · simp [cachedFetch, hc, hfresh] at hb1
        · simp [cachedFetch, hc, hfresh]
    have hl : cacheLookup (cachedFetch t1 k c n1).1 k =
        some ⟨(fetch_uptimerobot_data n1).2, t1⟩ := by
      rw [key]
      exact cacheLookup_cacheStore_self _ _ _
    have h2 := cachedFetch_hit t2 k (cachedFetch t1 k c n1).1 n2
      ⟨(fetch_uptimerobot_data n1).2, t1⟩ hl hle
    rw [h2] at hb2
    simp at hb2
  · intro c k now n e he hstale
    have hcond : ¬ (now - e.storedAt ≤ 300) := by omega
    constructor
    · simp [cachedFetch, he, hcond]
    · simp [cachedFetch, he, hcond, cacheLookup_cacheStore_self]

/-- C2, witness: on an empty cache, calls at times 0 and 100 with key
`"u1"` issue at most one request; and with an entry stored at time 0, a
call at time 400 issues a request and overwrites the entry. -/
theorem C2_witness :
    (¬((cachedFetch 0 "u1" [] (.failure "x")).2.2 = true ∧
       (cachedFetch 100 "u1" (cachedFetch 0 "u1" [] (.failure "x")).1
         (.failure "x")).2.2 = true)) ∧
    ((cachedFetch 400 "u1" [("u1", ⟨none, 0⟩)] (.failure "x")).2.2 = true ∧
      cacheLookup (cachedFetch 400 "u1" [("u1", ⟨none, 0⟩)] (.failure "x")).1 "u1" =
        some ⟨none, 400⟩) := by
  constructor
  · exact C2_cache_ttl.1 [] "u1" 0 100 (.failure "x") (.failure "x")
      (by decide) (by decide) (by decide)
  · have h := C2_cache_ttl.2 [("u1", ⟨none, 0⟩)] "u1" 400 (.failure "x") ⟨none, 0⟩
      (by decide) (by decide)
    simpa using h

/-- C5: `to_log_table` yields one row per input log entry, in input order:
the row's event cell is the icon-and-label translation of the entry's
`type` (with the `("Event", "ℹ️")` fallback), its timestamp is the entry's
epoch-seconds `datetime` formatted as `YYYY-MM-DD HH:MM:SS` in local time
(offset `tz`), and its details are `reason.detail` when present and the
literal `"N/A"` when absent; an absent or empty input yields an empty
table.  The last conjunct checks the spec's concrete example entry. -/
theorem C5_log_table (tz : Int) (logs : List LogEntry) :
    to_log_table tz none = [] ∧
    to_log_table tz (some []) = [] ∧
    (to_log_table tz (some logs)).length = logs.length ∧
    (∀ i : Nat, (to_log_table tz (some logs))[i]? =
      (logs[i]?).map (fun e =>
        { event := (translate_status_log e.type).2 ++ " " ++ (translate_status_log e.type).1
          timestamp := formatTimestamp tz e.datetime
          details := (e.reason.bind Reason.detail).getD "N/A" })) ∧
    to_log_table tz (some [⟨9, 1700000000, some ⟨some "Connection timed out"⟩⟩]) =
      [⟨"🔥 Down", formatTimestamp tz 1700000000, "Connection timed out"⟩] := by
  refine ⟨rfl, rfl, ?_, ?_, ?_⟩
  · rw [to_log_table_some_eq_map]
    exact List.length_map ..
  · intro i
    rw [to_log_table_some_eq_map, List.getElem?_map]
    rfl
  · rw [to_log_table_some_eq_map]
    rfl

/-- C7: in the `friendly_name`-indexed dict, a duplicated name keeps
exactly one entry, the record occurring last in the input (last-write-wins),
and every record's `friendly_name` appears as a key. -/
theorem C7_last_write_wins (ms : List Monitor) (name : String) :
    (name ∈ ms.map Monitor.friendly_name →
      ((process_monitor_data (some ms)).map Prod.fst).count name = 1) ∧
    dictLookup (process_monitor_data (some ms)) name =
      ms.reverse.find? (fun m => m.friendly_name = name) := by
  rw [process_monitor_data_some]
  constructor
  · intro h
    exact List.count_eq_one_of_mem (nodup_keys_monitor_dict ms)
      ((mem_keys_monitor_dict ms name).mpr h)
  · exact dictLookup_monitor_dict ms name

/-- C7, witness: two records named `"A"` produce one dict entry for `"A"`,
holding the second record. -/
theorem C7_witness :
    ((process_monitor_data (some
        [⟨"A", "u1", 2, none, none, none⟩, ⟨"A", "u2", 9, none, none, none⟩])).map
      Prod.fst).count "A" = 1 ∧
    dictLookup (process_monitor_data (some
        [⟨"A", "u1", 2, none, none, none⟩, ⟨"A", "u2", 9, none, none, none⟩])) "A" =
      some ⟨"A", "u2", 9, none, none, none⟩ := by
  constructor
  · exact (C7_last_write_wins
      [⟨"A", "u1", 2, none, none, none⟩, ⟨"A", "u2", 9, none, none, none⟩] "A").1
      (by decide)
  · rw [(C7_last_write_wins
      [⟨"A", "u1", 2, none, none, none⟩, ⟨"A", "u2", 9, none, none, none⟩] "A").2]
    decide

/-- C8: `to_series` converts each entry's epoch-seconds timestamp to a
calendar datetime, preserving input order and count (the i-th output comes
from the i-th input, none dropped), and yields the empty sequence on an
absent or empty input. -/
theorem C8_series_shape (rts : List ResponseTime) :
    to_series none = [] ∧
    to_series (some []) = [] ∧
    (to_series (some rts)).length = rts.length ∧
    (∀ i : Nat, (to_series (some rts))[i]? =
      (rts[i]?).map (fun r => (epochToCivil r.datetime, r.value))) := by
  refine ⟨rfl, rfl, ?_, ?_⟩
  · rw [to_series_some_eq_map]
    exact List.length_map ..
  · intro i
    rw [to_series_some_eq_map, List.getElem?_map]

/-- C9: the index of the empty record list is the empty mapping, and in the
main script an empty mapping (zero monitors, e.g. after a failed fetch)
halts further rendering with the warning message — the embedded pipeline is
a total function, so no crash or unhandled fault occurs. -/
theorem C9_empty_index_halts :
    process_monitor_data (some []) = [] ∧
    (∀ (key : String) (t : TransportResult), key ≠ "" →
      process_monitor_data (fetch_uptimerobot_data t).2 = [] →
      app_main key t = .haltedNoData "No monitor data found or an error occurred.") := by
  refine ⟨rfl, ?_⟩
  intro key t hk h
  simp [app_main, hk, h]

/-- C9, witness: with a non-empty key and a failing transport, the render
cycle halts with the warning. -/
theorem C9_witness :
    app_main "k" (.failure "x") =
      .haltedNoData "No monitor data found or an error occurred." :=
  C9_empty_index_halts.2 "k" (.failure "x") (by decide) (by decide)

end ApiMonitor
